import Mathlib

/-!
GrVkRenderTarget: render-pass cache, wrap mode and retire list.

A shallow embedding of the inline member functions of `GrVkRenderTarget`
(`src/gpu/vk/GrVkRenderTarget.h`) and theorems about them.

Conventions of the embedding.

* A pointer is an `Option`: `none` is `nullptr`.
* An `int` is an `Int` in the range of 32 bits; the result of `int`
  arithmetic is brought back into that range by `wrapInt32`.
* `SkASSERT(c)` checks `c` when `SK_DEBUG` is defined and is empty otherwise.
  The build is the parameter `skDebug`.  A failed check ends the call with a
  `Violation` carrying the source line.
* A call that needs `createSimpleRenderPass`, `GrSurface::ComputeSize` (both
  only declared for this header) takes them as parameters.
-/

/-! ## Data model -/

/-- A Vulkan dispatchable handle, an address; zero is the null handle. -/
abbrev VkCommandBuffer := Nat

/-- The null handle. -/
def VK_NULL_HANDLE : VkCommandBuffer := 0

/-- Modelled from the spec: `GrVkResourceProvider::CompatibleRPHandle` is not
declared in this header.  It is an opaque, default-invalid token; `some i` is
a valid token naming entry `i` of the provider. -/
structure CompatibleRPHandle where
  fValue : Option Nat := none
  deriving DecidableEq, Repr

/-- Modelled from the spec: validity test of the opaque token. -/
def CompatibleRPHandle.isValid (h : CompatibleRPHandle) : Bool :=
  h.fValue.isSome

/-- Modelled from the spec: `GrVkRenderPass` is declared elsewhere.  Only the
identity of a pass and whether it has a stencil attachment are used here. -/
structure GrVkRenderPass where
  fId : Nat
  fHasStencilAttachment : Bool
  deriving DecidableEq, Repr

/-- Modelled from the spec: the stencil presence of a pass, the accessor
`hasStencilAttachment()` of the class declared elsewhere. -/
def GrVkRenderPass.hasStencilAttachment (p : GrVkRenderPass) : Bool :=
  p.fHasStencilAttachment

/-- The part of `GrVkImage` read here: the managed resource pointer. -/
structure GrVkImage where
  fResource : Option Nat
  deriving DecidableEq, Repr

/-- Integer size, `SkISize`. -/
structure SkISize where
  fWidth : Int
  fHeight : Int
  deriving DecidableEq, Repr

/-- Whether a mip chain is accounted for. -/
inductive GrMipMapped where
  | kNo
  | kYes
  deriving DecidableEq, Repr

/-- The object state: the data members of `GrVkRenderTarget` (lines 183-214)
and the base-class values its inline functions read (`numSamples()`,
`dimensions()`, `getBackendFormat()`, `getGpu()->caps()`). -/
structure GrVkRenderTarget where
  fSampleCnt : Int
  fDimensions : SkISize
  fBackendFormat : Nat
  fCaps : Nat
  fColorAttachmentView : Option Nat
  fMSAAImage : Option GrVkImage
  fResolveAttachmentView : Option Nat
  fCachedFramebuffer : Option Nat
  fCachedStencilFramebuffer : Option Nat
  fCachedSimpleRenderPass : Option GrVkRenderPass
  fCachedStencilRenderPass : Option GrVkRenderPass
  fCompatibleRPHandle : CompatibleRPHandle
  fCompatibleStencilRPHandle : CompatibleRPHandle
  fSecondaryCommandBuffer : VkCommandBuffer := VK_NULL_HANDLE
  fGrSecondaryCommandBuffers : List Nat
  deriving DecidableEq, Repr

/-- How a call can end abnormally; the number is the source line. -/
inductive Violation where
  | assertion (line : Nat)
  | nullDereference (line : Nat)
  deriving DecidableEq, Repr

/-- The outcome of a call on the object: the object state when the call
ended, the `createSimpleRenderPass` invocations it made (their arguments, in
order), and the returned value or the violation that ended it. -/
structure CallResult (α : Type) where
  target : GrVkRenderTarget
  created : List Bool
  value : Except Violation α

/-- The type of `GrSurface::ComputeSize(caps, format, dimensions,
colorSamplesPerPixel, mipMapped)`, a parameter of the embedding. -/
abbrev ComputeSizeFn := Nat → Nat → SkISize → Int → GrMipMapped → Nat

/-- The type of the member `createSimpleRenderPass(withStencil)`, a parameter
of the embedding: the returned pointer and the object state afterwards. -/
abbrev CreateFn := Bool → GrVkRenderTarget → Option GrVkRenderPass × GrVkRenderTarget

namespace GrVkRenderTarget

/-! ## Inline member functions -/

/-- Line 44. -/
def backendFormat (t : GrVkRenderTarget) : Nat := t.fBackendFormat

/-- The base-class accessor `numSamples()`. -/
def numSamples (t : GrVkRenderTarget) : Int := t.fSampleCnt

/-- The base-class accessor `dimensions()`. -/
def dimensions (t : GrVkRenderTarget) : SkISize := t.fDimensions

/-- Line 47. -/
def colorAttachmentView (t : GrVkRenderTarget) : Option Nat := t.fColorAttachmentView

/-- Lines 48-53. -/
def msaaImageResource (t : GrVkRenderTarget) : Option Nat :=
  match t.fMSAAImage with
  | some img => img.fResource
  | none => none

/-- Line 54. -/
def msaaImage (t : GrVkRenderTarget) : Option GrVkImage := t.fMSAAImage

/-- Line 55. -/
def resolveAttachmentView (t : GrVkRenderTarget) : Option Nat := t.fResolveAttachmentView

/-- Line 86. -/
def wrapsSecondaryCommandBuffer (t : GrVkRenderTarget) : Bool :=
  t.fSecondaryCommandBuffer != VK_NULL_HANDLE

/-- Lines 87-89. -/
def getExternalSecondaryCommandBuffer (t : GrVkRenderTarget) : VkCommandBuffer :=
  t.fSecondaryCommandBuffer

/-- Lines 91-95. -/
def canAttemptStencilAttachment (t : GrVkRenderTarget) : Bool :=
  !wrapsSecondaryCommandBuffer t

/-- The handle field `pRPHandle` points to (line 63), read in state `t`. -/
def rpHandleSlot (withStencil : Bool) (t : GrVkRenderTarget) : CompatibleRPHandle :=
  if withStencil then t.fCompatibleStencilRPHandle else t.fCompatibleRPHandle

/-- The cached pass that belongs to the same slot as `rpHandleSlot`. -/
def cachedPassSlot (withStencil : Bool) (t : GrVkRenderTarget) : Option GrVkRenderPass :=
  if withStencil then t.fCachedStencilRenderPass else t.fCachedSimpleRenderPass

/-- `SkASSERT(cond)` at `line`: the condition is evaluated and checked only
in a debug build; evaluating it may itself go wrong. -/
def SkASSERT (skDebug : Bool) (line : Nat) (cond : Except Violation Bool) :
    Except Violation Unit :=
  if skDebug then
    match cond with
    | .error e => .error e
    | .ok true => .ok ()
    | .ok false => .error (.assertion line)
  else .ok ()

/-- Evaluation of `p->hasStencilAttachment()` at `line`. -/
def derefHasStencil (line : Nat) (p : Option GrVkRenderPass) : Except Violation Bool :=
  match p with
  | some rp => .ok rp.hasStencilAttachment
  | none => .error (.nullDereference line)

/-- The `#ifdef SK_DEBUG` block, lines 68-76, run in state `t`. -/
def debugChecks (skDebug : Bool) (withStencil : Bool) (t : GrVkRenderTarget) : Except Violation Unit :=
  if skDebug then
    if withStencil then
      match SkASSERT skDebug 70
          (.ok ((rpHandleSlot withStencil t).isValid == t.fCachedStencilRenderPass.isSome)) with
      | .error e => .error e
      | .ok () => SkASSERT skDebug 71 (derefHasStencil 71 t.fCachedStencilRenderPass)
    else
      match SkASSERT skDebug 73
          (.ok ((rpHandleSlot withStencil t).isValid == t.fCachedSimpleRenderPass.isSome)) with
      | .error e => .error e
      | .ok () =>
        SkASSERT skDebug 74
          (match derefHasStencil 74 t.fCachedSimpleRenderPass with
           | .ok b => .ok (!b)
           | .error e => .error e)
  else .ok ()

/-- Lines 60-79. -/
def compatibleRenderPassHandle (skDebug : Bool) (createSimpleRenderPass : CreateFn)
    (withStencil : Bool) (t : GrVkRenderTarget) : CallResult CompatibleRPHandle :=
  match SkASSERT skDebug 61 (.ok (!wrapsSecondaryCommandBuffer t)) with
  | .error e => ⟨t, [], .error e⟩
  | .ok () =>
    let afterCreate : GrVkRenderTarget × List Bool :=
      if !(rpHandleSlot withStencil t).isValid then
        ((createSimpleRenderPass withStencil t).2, [withStencil])
      else (t, [])
    match debugChecks skDebug withStencil afterCreate.1 with
    | .error e => ⟨afterCreate.1, afterCreate.2, .error e⟩
    | .ok () => ⟨afterCreate.1, afterCreate.2, .ok (rpHandleSlot withStencil afterCreate.1)⟩

/-- Lines 80-84. -/
def externalRenderPass (skDebug : Bool) (t : GrVkRenderTarget) : Except Violation (Option GrVkRenderPass) :=
  match SkASSERT skDebug 81 (.ok (wrapsSecondaryCommandBuffer t)) with
  | .error e => .error e
  | .ok () => .ok t.fCachedSimpleRenderPass

/-- Lines 105-107. -/
def addWrappedGrSecondaryCommandBuffer (cmdBuffer : Nat) (t : GrVkRenderTarget) : GrVkRenderTarget :=
  { t with fGrSecondaryCommandBuffers := t.fGrSecondaryCommandBuffers ++ [cmdBuffer] }

/-- The largest value of a 32-bit `int`. -/
def INT_MAX : Int := 2147483647

/-- The 32-bit `int` that holds the arithmetic result `x`: the value of `x`
modulo `2 ^ 32` in the range from `-2 ^ 31` to `2 ^ 31 - 1`. -/
def wrapInt32 (x : Int) : Int :=
  (x + 2147483648) % 4294967296 - 2147483648

/-- The value of `numColorSamples` passed on line 140, lines 133-137; the
`+= 1` of line 136 is an addition of 32-bit `int`s. -/
def numColorSamples (t : GrVkRenderTarget) : Int :=
  let numColorSamples := numSamples t
  if numColorSamples > 1 then wrapInt32 (numColorSamples + 1) else numColorSamples

/-- Lines 132-141. -/
def onGpuMemorySize (ComputeSize : ComputeSizeFn) (t : GrVkRenderTarget) : Nat :=
  ComputeSize t.fCaps (backendFormat t) (dimensions t) (numColorSamples t) GrMipMapped.kNo

/-! ## Creation as the spec describes it -/

/-- The type of the external pass provider: for a target and a stencil flag,
a compatible pass with its lookup handle, or nothing when none can be had. -/
abbrev ProviderFn := GrVkRenderTarget → Bool → Option (GrVkRenderPass × CompatibleRPHandle)

/-- Modelled from the spec: `createSimpleRenderPass` is declared on line 169
and defined outside this header.  The first call for a stencil flag asks the
external pass provider for a compatible pass and stores both the pass and its
lookup handle, in the slot of that flag.  When the provider yields nothing,
nothing is stored and the null pointer is returned. -/
def specCreateSimpleRenderPass (findCompatibleRenderPass : ProviderFn) : CreateFn :=
  fun withStencil t =>
    match findCompatibleRenderPass t withStencil with
    | none => (none, t)
    | some (pass, handle) =>
      if withStencil then
        (some pass, { t with fCachedStencilRenderPass := some pass
                             fCompatibleStencilRPHandle := handle })
      else
        (some pass, { t with fCachedSimpleRenderPass := some pass
                             fCompatibleRPHandle := handle })

/-! ## Calls as operations on the object -/

/-- What the inline member functions need from outside the header. -/
structure Env where
  skDebug : Bool
  createSimpleRenderPass : CreateFn
  ComputeSize : ComputeSizeFn

/-- The member functions whose body is in the header. -/
inductive Op where
  | backendFormat
  | colorAttachmentView
  | msaaImageResource
  | msaaImage
  | resolveAttachmentView
  | compatibleRenderPassHandle (withStencil : Bool)
  | externalRenderPass
  | wrapsSecondaryCommandBuffer
  | getExternalSecondaryCommandBuffer
  | canAttemptStencilAttachment
  | addWrappedGrSecondaryCommandBuffer (cmdBuffer : Nat)
  | onGpuMemorySize
  deriving DecidableEq, Repr

/-- A returned value of any of the member functions. -/
inductive Ret where
  | format (f : Nat)
  | view (v : Option Nat)
  | resource (r : Option Nat)
  | image (i : Option GrVkImage)
  | handle (h : CompatibleRPHandle)
  | pass (p : Option GrVkRenderPass)
  | flag (b : Bool)
  | commandBuffer (c : VkCommandBuffer)
  | size (n : Nat)
  | void
  deriving DecidableEq, Repr

/-- A `const` member function that cannot fail: the state is kept. -/
def constCall (t : GrVkRenderTarget) (r : Ret) : CallResult Ret :=
  ⟨t, [], .ok r⟩

/-- One call of a member function on the object in state `t`. -/
def call (env : Env) (op : Op) (t : GrVkRenderTarget) : CallResult Ret :=
  match op with
  | .backendFormat => constCall t (.format (backendFormat t))
  | .colorAttachmentView => constCall t (.view (colorAttachmentView t))
  | .msaaImageResource => constCall t (.resource (msaaImageResource t))
  | .msaaImage => constCall t (.image (msaaImage t))
  | .resolveAttachmentView => constCall t (.view (resolveAttachmentView t))
  | .compatibleRenderPassHandle withStencil =>
    let r := compatibleRenderPassHandle env.skDebug env.createSimpleRenderPass withStencil t
    ⟨r.target, r.created,
      match r.value with
      | .ok h => .ok (.handle h)
      | .error e => .error e⟩
  | .externalRenderPass =>
    ⟨t, [],
      match externalRenderPass env.skDebug t with
      | .ok p => .ok (.pass p)
      | .error e => .error e⟩
  | .wrapsSecondaryCommandBuffer => constCall t (.flag (wrapsSecondaryCommandBuffer t))
  | .getExternalSecondaryCommandBuffer =>
    constCall t (.commandBuffer (getExternalSecondaryCommandBuffer t))
  | .canAttemptStencilAttachment => constCall t (.flag (canAttemptStencilAttachment t))
  | .addWrappedGrSecondaryCommandBuffer cmdBuffer =>
    ⟨addWrappedGrSecondaryCommandBuffer cmdBuffer t, [], .ok .void⟩
  | .onGpuMemorySize => constCall t (.size (onGpuMemorySize env.ComputeSize t))

/-- A sequence of calls, in order; a violation ends the run.  The result is
the last object state and every `createSimpleRenderPass` invocation made. -/
def runOps (env : Env) : List Op → GrVkRenderTarget → GrVkRenderTarget × List Bool
  | [], t => (t, [])
  | op :: ops, t =>
    let r := call env op t
    match r.value with
    | .error _ => (r.target, r.created)
    | .ok _ =>
      let rest := runOps env ops r.target
      (rest.1, r.created ++ rest.2)

/-- The results of `n` consecutive `compatibleRenderPassHandle(withStencil)`
calls starting in state `t`, each made in the state the previous one left. -/
def repeatedCalls (skDebug : Bool) (createSimpleRenderPass : CreateFn) (withStencil : Bool) :
    Nat → GrVkRenderTarget → List (CallResult CompatibleRPHandle)
  | 0, _ => []
  | n + 1, t =>
    let r := compatibleRenderPassHandle skDebug createSimpleRenderPass withStencil t
    r :: repeatedCalls skDebug createSimpleRenderPass withStencil n r.target

/-- The cache-consistency condition of one slot: a valid handle comes with a
cached pass whose stencil presence is the flag. -/
def slotConsistent (withStencil : Bool) (t : GrVkRenderTarget) : Bool :=
  !(rpHandleSlot withStencil t).isValid ||
    (match cachedPassSlot withStencil t with
     | some p => p.hasStencilAttachment == withStencil
     | none => false)

/-- One call of every member function of the header, ending with a request
for the non-stencil pass. -/
def everyOp : List Op :=
  [Op.addWrappedGrSecondaryCommandBuffer 5, Op.externalRenderPass, Op.onGpuMemorySize,
    Op.colorAttachmentView, Op.msaaImageResource, Op.msaaImage,
    Op.resolveAttachmentView, Op.backendFormat, Op.canAttemptStencilAttachment,
    Op.wrapsSecondaryCommandBuffer, Op.getExternalSecondaryCommandBuffer,
    Op.addWrappedGrSecondaryCommandBuffer 6, Op.compatibleRenderPassHandle false]

/-- Every entry of `old` is still in `new`, at the same position. -/
def keepsEntries (old new : List Nat) : Prop :=
  ∃ added, new = old ++ added

/-! ## Concrete objects -/

/-- An owning target 256 x 256 with four samples and both slots empty. -/
def owningTarget : GrVkRenderTarget :=
  { fSampleCnt := 4, fDimensions := ⟨256, 256⟩, fBackendFormat := 37, fCaps := 0,
    fColorAttachmentView := some 1, fMSAAImage := some ⟨some 2⟩,
    fResolveAttachmentView := some 3,
    fCachedFramebuffer := none, fCachedStencilFramebuffer := none,
    fCachedSimpleRenderPass := none, fCachedStencilRenderPass := none,
    fCompatibleRPHandle := {}, fCompatibleStencilRPHandle := {},
    fGrSecondaryCommandBuffers := [] }

/-- The owning target after both passes were cached. -/
def cachedTarget : GrVkRenderTarget :=
  { owningTarget with
    fCachedSimpleRenderPass := some ⟨10, false⟩, fCachedStencilRenderPass := some ⟨11, true⟩,
    fCompatibleRPHandle := ⟨some 0⟩, fCompatibleStencilRPHandle := ⟨some 1⟩ }

/-- A target that wraps the external command buffer at address 4096 and holds
the host pass 20 in the non-stencil slot. -/
def wrappedTarget : GrVkRenderTarget :=
  { fSampleCnt := 1, fDimensions := ⟨256, 256⟩, fBackendFormat := 37, fCaps := 0,
    fColorAttachmentView := none, fMSAAImage := none, fResolveAttachmentView := none,
    fCachedFramebuffer := none, fCachedStencilFramebuffer := none,
    fCachedSimpleRenderPass := some ⟨20, false⟩, fCachedStencilRenderPass := none,
    fCompatibleRPHandle := {}, fCompatibleStencilRPHandle := {},
    fSecondaryCommandBuffer := 4096,
    fGrSecondaryCommandBuffers := [] }

/-- The owning target with the largest sample count an `int` can hold. -/
def maxSampleTarget : GrVkRenderTarget :=
  { owningTarget with fSampleCnt := 2147483647 }

/-- A creation that fails: the null pointer, and nothing stored. -/
def failingCreate : CreateFn := fun _ t => (none, t)

/-- A provider that hands out pass `10` or `11` under handle `0` or `1`. -/
def demoProvider : ProviderFn := fun _ withStencil =>
  if withStencil then some (⟨11, true⟩, ⟨some 1⟩) else some (⟨10, false⟩, ⟨some 0⟩)

/-- Four bytes per pixel, linear in the sample count. -/
def demoComputeSize : ComputeSizeFn := fun _ _ dims samples _ =>
  samples.toNat * ((dims.fWidth * dims.fHeight).toNat * 4)

/-- A debug build with the demonstration provider and size computation. -/
def debugEnv : Env :=
  { skDebug := true, createSimpleRenderPass := specCreateSimpleRenderPass demoProvider,
    ComputeSize := demoComputeSize }

end GrVkRenderTarget

namespace GrVkRenderTarget

/-! ## Auxiliary facts -/

lemma SkASSERT_release (line : Nat) (cond : Except Violation Bool) :
    SkASSERT false line cond = .ok () := rfl

lemma debugChecks_release (withStencil : Bool) (t : GrVkRenderTarget) :
    debugChecks false withStencil t = .ok () := rfl

/-- The debug block passes exactly when the slot holds a valid handle and a
cached pass whose stencil presence is the flag. -/
lemma debugChecks_debug_ok_iff (withStencil : Bool) (t : GrVkRenderTarget) :
    debugChecks true withStencil t = .ok () ↔
      ((rpHandleSlot withStencil t).isValid = true ∧
        ∃ p, cachedPassSlot withStencil t = some p ∧ p.hasStencilAttachment = withStencil) := by
  cases withStencil
  · cases hv : t.fCompatibleRPHandle.isValid <;> cases hp : t.fCachedSimpleRenderPass with
    | none => simp [debugChecks, SkASSERT, derefHasStencil, rpHandleSlot, cachedPassSlot, hv, hp]
    | some p =>
      cases hs : p.hasStencilAttachment <;>
        simp [debugChecks, SkASSERT, derefHasStencil, rpHandleSlot, cachedPassSlot, hv, hp, hs]
  · cases hv : t.fCompatibleStencilRPHandle.isValid <;>
      cases hp : t.fCachedStencilRenderPass with
    | none => simp [debugChecks, SkASSERT, derefHasStencil, rpHandleSlot, cachedPassSlot, hv, hp]
    | some p =>
      cases hs : p.hasStencilAttachment <;>
        simp [debugChecks, SkASSERT, derefHasStencil, rpHandleSlot, cachedPassSlot, hv, hp, hs]

lemma slotConsistent_of_valid (withStencil : Bool) (t : GrVkRenderTarget)
    (hv : (rpHandleSlot withStencil t).isValid = true) :
    slotConsistent withStencil t = true ↔
      ∃ p, cachedPassSlot withStencil t = some p ∧ p.hasStencilAttachment = withStencil := by
  unfold slotConsistent
  rw [hv]
  cases hp : cachedPassSlot withStencil t <;> simp

/-- On a valid slot the checks of the debug block pass in either build when
the slot is consistent in the debug build. -/
lemma debugChecks_hit (skDebug withStencil : Bool) (t : GrVkRenderTarget)
    (hv : (rpHandleSlot withStencil t).isValid = true)
    (hc : skDebug = true → slotConsistent withStencil t = true) :
    debugChecks skDebug withStencil t = .ok () := by
  cases skDebug
  · rfl
  · exact (debugChecks_debug_ok_iff withStencil t).2
      ⟨hv, (slotConsistent_of_valid withStencil t hv).1 (hc rfl)⟩

/-- A cache hit: nothing is created, nothing changes, the slot's handle is
returned. -/
lemma compatibleRenderPassHandle_hit (skDebug : Bool) (create : CreateFn) (withStencil : Bool)
    (t : GrVkRenderTarget) (hown : wrapsSecondaryCommandBuffer t = false)
    (hv : (rpHandleSlot withStencil t).isValid = true)
    (hc : skDebug = true → slotConsistent withStencil t = true) :
    compatibleRenderPassHandle skDebug create withStencil t
      = ⟨t, [], .ok (rpHandleSlot withStencil t)⟩ := by
  have hd := debugChecks_hit skDebug withStencil t hv hc
  unfold compatibleRenderPassHandle
  cases skDebug <;> simp [SkASSERT, hown, hv, hd]

/-- After a call that returned normally in a debug build the slot is valid
and consistent. -/
lemma compatibleRenderPassHandle_ok_post (skDebug : Bool) (create : CreateFn)
    (withStencil : Bool) (t : GrVkRenderTarget) (h : CompatibleRPHandle)
    (hok : (compatibleRenderPassHandle skDebug create withStencil t).value = .ok h) :
    h = rpHandleSlot withStencil (compatibleRenderPassHandle skDebug create withStencil t).target ∧
      (skDebug = true →
        slotConsistent withStencil
          (compatibleRenderPassHandle skDebug create withStencil t).target = true) := by
  unfold compatibleRenderPassHandle at hok ⊢
  cases hpre : SkASSERT skDebug 61 (.ok (!wrapsSecondaryCommandBuffer t)) with
  | error e => simp [hpre] at hok
  | ok u =>
    simp only [hpre] at hok ⊢
    split at hok
    · simp at hok
    · rename_i hd
      simp only [hd]
      simp only [Except.ok.injEq] at hok
      refine ⟨hok.symm, ?_⟩
      intro hdebug
      subst hdebug
      have := (debugChecks_debug_ok_iff withStencil _).1 hd
      exact (slotConsistent_of_valid withStencil _ this.1).2 this.2

/-- The precondition check of line 61 passes in owning mode. -/
lemma SkASSERT_owning (skDebug : Bool) (t : GrVkRenderTarget)
    (hown : wrapsSecondaryCommandBuffer t = false) :
    SkASSERT skDebug 61 (.ok (!wrapsSecondaryCommandBuffer t)) = .ok () := by
  cases skDebug <;> simp [SkASSERT, hown]

/-- The state a call ends in and the creations it requested, in owning mode. -/
lemma compatibleRenderPassHandle_effect (skDebug : Bool) (create : CreateFn)
    (withStencil : Bool) (t : GrVkRenderTarget)
    (hown : wrapsSecondaryCommandBuffer t = false) :
    (compatibleRenderPassHandle skDebug create withStencil t).created
        = (if (rpHandleSlot withStencil t).isValid then [] else [withStencil]) ∧
      (compatibleRenderPassHandle skDebug create withStencil t).target
        = (if (rpHandleSlot withStencil t).isValid then t else (create withStencil t).2) := by
  unfold compatibleRenderPassHandle
  rw [SkASSERT_owning skDebug t hown]
  cases hv : (rpHandleSlot withStencil t).isValid <;> simp only [] <;> split <;> simp

/-- A call that requested no creation left the object as it was. -/
lemma compatibleRenderPassHandle_created_nil (skDebug : Bool) (create : CreateFn)
    (withStencil : Bool) (t : GrVkRenderTarget)
    (hc : (compatibleRenderPassHandle skDebug create withStencil t).created = []) :
    (compatibleRenderPassHandle skDebug create withStencil t).target = t := by
  unfold compatibleRenderPassHandle at hc ⊢
  cases hpre : SkASSERT skDebug 61 (.ok (!wrapsSecondaryCommandBuffer t)) with
  | error e => simp
  | ok u =>
    simp only [hpre] at hc ⊢
    cases hv : (rpHandleSlot withStencil t).isValid
    · simp only [hv] at hc
      split at hc <;> simp at hc
    · split <;> simp

/-- A call on a valid slot requests no creation, in either mode and build. -/
lemma compatibleRenderPassHandle_valid_no_create (skDebug : Bool) (create : CreateFn)
    (withStencil : Bool) (t : GrVkRenderTarget)
    (hv : (rpHandleSlot withStencil t).isValid = true) :
    (compatibleRenderPassHandle skDebug create withStencil t).created = [] := by
  unfold compatibleRenderPassHandle
  cases hpre : SkASSERT skDebug 61 (.ok (!wrapsSecondaryCommandBuffer t)) with
  | error e => simp
  | ok u =>
    simp only [hv]
    split <;> simp

/-- The spec-modelled creation stores only into the slot of its flag. -/
lemma specCreateSimpleRenderPass_other_slot (provider : ProviderFn) (withStencil : Bool)
    (t : GrVkRenderTarget) :
    rpHandleSlot (!withStencil) (specCreateSimpleRenderPass provider withStencil t).2
        = rpHandleSlot (!withStencil) t ∧
      cachedPassSlot (!withStencil) (specCreateSimpleRenderPass provider withStencil t).2
        = cachedPassSlot (!withStencil) t := by
  unfold specCreateSimpleRenderPass
  cases hp : provider t withStencil with
  | none => simp
  | some ph => cases withStencil <;> simp [rpHandleSlot, cachedPassSlot]

/-- One call that requested no creation keeps the mode handle and every
recorded entry. -/
lemma call_frame (env : Env) (op : Op) (t : GrVkRenderTarget)
    (hc : (call env op t).created = []) :
    (call env op t).target.fSecondaryCommandBuffer = t.fSecondaryCommandBuffer ∧
      keepsEntries t.fGrSecondaryCommandBuffers
        (call env op t).target.fGrSecondaryCommandBuffers := by
  cases op with
  | compatibleRenderPassHandle ws =>
    have ht := compatibleRenderPassHandle_created_nil env.skDebug env.createSimpleRenderPass ws t hc
    simp only [call] at ht ⊢
    rw [ht]
    exact ⟨rfl, [], by simp⟩
  | addWrappedGrSecondaryCommandBuffer c =>
    exact ⟨rfl, [c], rfl⟩
  | _ => exact ⟨rfl, [], by simp [call, constCall]⟩

/-- A run that requested no creation keeps the mode handle and every
recorded entry. -/
lemma runOps_frame (env : Env) (ops : List Op) :
    ∀ t : GrVkRenderTarget, (runOps env ops t).2 = [] →
      (runOps env ops t).1.fSecondaryCommandBuffer = t.fSecondaryCommandBuffer ∧
        keepsEntries t.fGrSecondaryCommandBuffers
          (runOps env ops t).1.fGrSecondaryCommandBuffers := by
  induction ops with
  | nil => intro t _; exact ⟨rfl, [], by simp [runOps]⟩
  | cons op ops ih =>
    intro t hc
    simp only [runOps] at hc ⊢
    cases hv : (call env op t).value with
    | error e =>
      simp only [hv] at hc ⊢
      exact call_frame env op t hc
    | ok v =>
      simp only [hv, List.append_eq_nil] at hc ⊢
      obtain ⟨h1, ⟨a1, e1⟩⟩ := call_frame env op t hc.1
      obtain ⟨h2, ⟨a2, e2⟩⟩ := ih (call env op t).target hc.2
      exact ⟨h2.trans h1, a1 ++ a2, by rw [e2, e1, List.append_assoc]⟩

/-- In a debug build a call returns normally only with a cached pass in the
selected slot: a creation that leaves the slot's pass null ends the call with
a violation, whatever else it does. -/
lemma compatibleRenderPassHandle_failed_creation (create : CreateFn) (withStencil : Bool)
    (t : GrVkRenderTarget) (hown : wrapsSecondaryCommandBuffer t = false)
    (hinv : (rpHandleSlot withStencil t).isValid = false)
    (hfail : cachedPassSlot withStencil (create withStencil t).2 = none) :
    ∃ e, (compatibleRenderPassHandle true create withStencil t).value = .error e := by
  have heff := (compatibleRenderPassHandle_effect true create withStencil t hown).2
  simp only [hinv] at heff
  cases hval : (compatibleRenderPassHandle true create withStencil t).value with
  | error e => exact ⟨e, rfl⟩
  | ok h =>
    exfalso
    obtain ⟨hh, hcons⟩ := compatibleRenderPassHandle_ok_post true create withStencil t h hval
    have hc := hcons rfl
    rw [show (compatibleRenderPassHandle true create withStencil t).target
          = (create withStencil t).2 from by simpa using heff] at hc hh
    unfold compatibleRenderPassHandle at hval
    rw [SkASSERT_owning true t hown] at hval
    simp only [hinv] at hval
    split at hval
    · simp at hval
    · rename_i hd
      have := (debugChecks_debug_ok_iff withStencil _).1 hd
      obtain ⟨_, p, hp, _⟩ := this
      simp at hp
      rw [hfail] at hp
      exact Option.noConfusion hp

/-! ## The claims -/

/-- C1, as stated, fails: at the sample count `INT_MAX`, which is greater
than 1, the multiplier passed on is not `n + 1` but the smallest `int`, and
with the demonstration size computation the footprint is not
`baseSize * (N + 1)`. -/
theorem C1_sample_multiplier_wraps_at_int_max :
    numSamples maxSampleTarget = INT_MAX ∧
      1 < numSamples maxSampleTarget ∧
      numColorSamples maxSampleTarget = -2147483648 ∧
      numColorSamples maxSampleTarget ≠ numSamples maxSampleTarget + 1 ∧
      (onGpuMemorySize demoComputeSize maxSampleTarget : Int)
        ≠ (demoComputeSize maxSampleTarget.fCaps (backendFormat maxSampleTarget)
            (dimensions maxSampleTarget) 1 GrMipMapped.kNo : Int)
              * (numSamples maxSampleTarget + 1) := by
  refine ⟨rfl, by decide, by decide, by decide, by decide⟩

/-- C1, amended: for every render target whose colour sample count `n` is
below `INT_MAX`, `onGpuMemorySize` passes to the size computation the
target's caps, format and dimensions, no mip maps, and a sample multiplier
`m` that depends only on `n`: `m = n` when `n <= 1`, `m = n + 1` when
`n > 1`.  Hence, when the size computation is linear in the sample count and
`baseSize` is the size for one sample, the footprint is `baseSize` for sample
count 1 and `baseSize * (N + 1)` for every sample count `N` with
`1 < N < INT_MAX`. -/
theorem C1_onGpuMemorySize_sample_multiplier (ComputeSize : ComputeSizeFn)
    (t : GrVkRenderTarget) (hrange : numSamples t < INT_MAX) :
    onGpuMemorySize ComputeSize t
        = ComputeSize t.fCaps (backendFormat t) (dimensions t)
            (if numSamples t ≤ 1 then numSamples t else numSamples t + 1) GrMipMapped.kNo ∧
      ((∀ s : Int, 0 ≤ s →
          ComputeSize t.fCaps (backendFormat t) (dimensions t) s GrMipMapped.kNo
            = s.toNat * ComputeSize t.fCaps (backendFormat t) (dimensions t) 1 GrMipMapped.kNo) →
        (numSamples t = 1 →
          onGpuMemorySize ComputeSize t
            = ComputeSize t.fCaps (backendFormat t) (dimensions t) 1 GrMipMapped.kNo) ∧
        (∀ N : Int, 1 < N → numSamples t = N →
          (onGpuMemorySize ComputeSize t : Int)
            = (ComputeSize t.fCaps (backendFormat t) (dimensions t) 1 GrMipMapped.kNo : Int)
                * (N + 1))) := by
  have hwrap : 1 < numSamples t → wrapInt32 (numSamples t + 1) = numSamples t + 1 := by
    intro h1
    unfold INT_MAX at hrange
    unfold wrapInt32
    omega
  refine ⟨?_, ?_⟩
  · unfold onGpuMemorySize numColorSamples
    by_cases h : numSamples t ≤ 1
    · have h' : ¬ numSamples t > 1 := by omega
      simp [h, h']
    · have h' : numSamples t > 1 := by omega
      simp [h, h', hwrap h']
  · intro hlin
    refine ⟨?_, ?_⟩
    · intro h1
      unfold onGpuMemorySize numColorSamples
      simp [h1]
    · intro N hN hn
      have hm : numColorSamples t = N + 1 := by
        have hw := hwrap (by omega)
        unfold numColorSamples
        rw [hn] at hw
        simp [hn, hN, hw]
      unfold onGpuMemorySize
      rw [hm, hlin (N + 1) (by omega)]
      push_cast
      rw [Int.toNat_of_nonneg (by omega)]
      ring

/-- C1, amended, at the owning target with four samples and the
demonstration size computation: five times the one-sample size. -/
theorem C1_onGpuMemorySize_sample_multiplier_witness :
    numSamples owningTarget < INT_MAX ∧
      onGpuMemorySize demoComputeSize owningTarget = 1310720 ∧
      (onGpuMemorySize demoComputeSize owningTarget : Int)
        = (demoComputeSize owningTarget.fCaps (backendFormat owningTarget)
            (dimensions owningTarget) 1 GrMipMapped.kNo : Int) * (4 + 1) :=
  ⟨by decide, rfl,
    ((C1_onGpuMemorySize_sample_multiplier demoComputeSize owningTarget (by decide)).2
      (fun s _ => rfl)).2 4 (by decide) rfl⟩

/-- C2: `canAttemptStencilAttachment()` is false exactly when
`wrapsSecondaryCommandBuffer()` is true, which is exactly when the stored
secondary command buffer handle differs from `VK_NULL_HANDLE`; a target whose
handle is `VK_NULL_HANDLE` can attempt a stencil attachment. -/
theorem C2_canAttemptStencilAttachment_iff (t : GrVkRenderTarget) :
    (canAttemptStencilAttachment t = false ↔ wrapsSecondaryCommandBuffer t = true) ∧
      (wrapsSecondaryCommandBuffer t = true ↔ t.fSecondaryCommandBuffer ≠ VK_NULL_HANDLE) ∧
      (t.fSecondaryCommandBuffer = VK_NULL_HANDLE → canAttemptStencilAttachment t = true) := by
  unfold canAttemptStencilAttachment wrapsSecondaryCommandBuffer
  refine ⟨by simp, by simp, ?_⟩
  intro h
  simp [h]

/-- C2 at the owning target, whose handle is the default one. -/
theorem C2_canAttemptStencilAttachment_iff_witness :
    owningTarget.fSecondaryCommandBuffer = VK_NULL_HANDLE ∧
      canAttemptStencilAttachment owningTarget = true :=
  ⟨rfl, (C2_canAttemptStencilAttachment_iff owningTarget).2.2 rfl⟩

/-- C3: when the selected slot already holds a valid handle,
`compatibleRenderPassHandle(withStencil)` does not invoke
`createSimpleRenderPass` and leaves every field unchanged, and in an
owning-mode state (which, in a debug build, satisfies the consistency the
debug block checks) it returns exactly that handle.  So after a first call
that returned a valid handle and left the target in owning mode, any number
of consecutive calls with the same flag return a handle equal to the first,
create nothing and change nothing. -/
theorem C3_repeated_lookup_returns_cached (skDebug : Bool) (create : CreateFn)
    (withStencil : Bool) :
    (∀ t : GrVkRenderTarget, (rpHandleSlot withStencil t).isValid = true →
        (compatibleRenderPassHandle skDebug create withStencil t).created = [] ∧
          (compatibleRenderPassHandle skDebug create withStencil t).target = t) ∧
      (∀ t : GrVkRenderTarget, wrapsSecondaryCommandBuffer t = false →
        (rpHandleSlot withStencil t).isValid = true →
        (skDebug = true → slotConsistent withStencil t = true) →
        (compatibleRenderPassHandle skDebug create withStencil t).value
          = .ok (rpHandleSlot withStencil t)) ∧
      (∀ (t : GrVkRenderTarget) (h : CompatibleRPHandle),
        (compatibleRenderPassHandle skDebug create withStencil t).value = .ok h →
        h.isValid = true →
        wrapsSecondaryCommandBuffer
          (compatibleRenderPassHandle skDebug create withStencil t).target = false →
        ∀ (n : Nat) (r : CallResult CompatibleRPHandle),
          r ∈ repeatedCalls skDebug create withStencil n
                (compatibleRenderPassHandle skDebug create withStencil t).target →
          r.value = .ok h ∧ r.created = [] ∧
            r.target = (compatibleRenderPassHandle skDebug create withStencil t).target) := by
  refine ⟨?_, ?_, ?_⟩
  · intro t hv
    have hnil := compatibleRenderPassHandle_valid_no_create skDebug create withStencil t hv
    exact ⟨hnil, compatibleRenderPassHandle_created_nil skDebug create withStencil t hnil⟩
  · intro t hown hv hc
    rw [compatibleRenderPassHandle_hit skDebug create withStencil t hown hv hc]
  · intro t h hok hvalid hown n
    obtain ⟨hh, hcons⟩ := compatibleRenderPassHandle_ok_post skDebug create withStencil t h hok
    generalize (compatibleRenderPassHandle skDebug create withStencil t).target = t1 at *
    have hv1 : (rpHandleSlot withStencil t1).isValid = true := hh ▸ hvalid
    have hhit := compatibleRenderPassHandle_hit skDebug create withStencil t1 hown hv1 hcons
    induction n with
    | zero => intro r hr; simp [repeatedCalls] at hr
    | succ k ih =>
      intro r hr
      simp only [repeatedCalls, hhit, List.mem_cons] at hr
      rcases hr with hr | hr
      · subst hr
        exact ⟨by rw [hh], rfl, rfl⟩
      · exact ih r hr

/-- C3 on the empty owning target in a debug build: the first call creates
the stencil pass, the next three return the same handle. -/
theorem C3_repeated_lookup_returns_cached_witness :
    (compatibleRenderPassHandle true (specCreateSimpleRenderPass demoProvider) true
        owningTarget).value = .ok ⟨some 1⟩ ∧
      ∀ r ∈ repeatedCalls true (specCreateSimpleRenderPass demoProvider) true 3
          (compatibleRenderPassHandle true (specCreateSimpleRenderPass demoProvider) true
            owningTarget).target,
        r.value = .ok ⟨some 1⟩ ∧ r.created = [] ∧
          r.target = (compatibleRenderPassHandle true (specCreateSimpleRenderPass demoProvider)
            true owningTarget).target :=
  ⟨rfl, fun r hr =>
    (C3_repeated_lookup_returns_cached true (specCreateSimpleRenderPass demoProvider) true).2.2
      owningTarget ⟨some 1⟩ rfl rfl rfl 3 r hr⟩

/-- C4: in an owning-mode state `compatibleRenderPassHandle(withStencil)`
tests only the handle of the slot named by `withStencil` (creation is
requested exactly when that handle is not valid, and only for that flag),
writes no field itself (the state afterwards is the one before, or the one
`createSimpleRenderPass(withStencil)` left), and returns the handle of that
slot.  With creation as the spec describes it the other slot's handle and
cached pass are unchanged, so a valid handle there stays valid and equal. -/
theorem C4_render_pass_slots_independent (skDebug : Bool) (create : CreateFn)
    (provider : ProviderFn) (withStencil : Bool) (t : GrVkRenderTarget)
    (hown : wrapsSecondaryCommandBuffer t = false) :
    (compatibleRenderPassHandle skDebug create withStencil t).created
        = (if (rpHandleSlot withStencil t).isValid then [] else [withStencil]) ∧
      (compatibleRenderPassHandle skDebug create withStencil t).target
        = (if (rpHandleSlot withStencil t).isValid then t else (create withStencil t).2) ∧
      (∀ h, (compatibleRenderPassHandle skDebug create withStencil t).value = .ok h →
        h = rpHandleSlot withStencil
              (compatibleRenderPassHandle skDebug create withStencil t).target) ∧
      rpHandleSlot (!withStencil)
          (compatibleRenderPassHandle skDebug (specCreateSimpleRenderPass provider)
            withStencil t).target
        = rpHandleSlot (!withStencil) t ∧
      cachedPassSlot (!withStencil)
          (compatibleRenderPassHandle skDebug (specCreateSimpleRenderPass provider)
            withStencil t).target
        = cachedPassSlot (!withStencil) t ∧
      ((rpHandleSlot (!withStencil) t).isValid = true →
        (rpHandleSlot (!withStencil)
          (compatibleRenderPassHandle skDebug (specCreateSimpleRenderPass provider)
            withStencil t).target).isValid = true) := by
  have heff := compatibleRenderPassHandle_effect skDebug create withStencil t hown
  have hspec := compatibleRenderPassHandle_effect skDebug (specCreateSimpleRenderPass provider)
    withStencil t hown
  have hother := specCreateSimpleRenderPass_other_slot provider withStencil t
  have hframe :
      rpHandleSlot (!withStencil)
          (compatibleRenderPassHandle skDebug (specCreateSimpleRenderPass provider)
            withStencil t).target = rpHandleSlot (!withStencil) t ∧
        cachedPassSlot (!withStencil)
          (compatibleRenderPassHandle skDebug (specCreateSimpleRenderPass provider)
            withStencil t).target = cachedPassSlot (!withStencil) t := by
    rw [hspec.2]
    cases (rpHandleSlot withStencil t).isValid
    · simpa using hother
    · simp
  refine ⟨heff.1, heff.2, ?_, hframe.1, hframe.2, ?_⟩
  · intro h hok
    exact (compatibleRenderPassHandle_ok_post skDebug create withStencil t h hok).1
  · intro hv
    rw [hframe.1]
    exact hv

/-- C4 on the target with both passes cached, after the stencil slot is
emptied: a debug-build request for the stencil pass creates it and the
non-stencil slot still holds handle 0 and pass 10. -/
theorem C4_render_pass_slots_independent_witness :
    wrapsSecondaryCommandBuffer
        { cachedTarget with fCachedStencilRenderPass := none
                            fCompatibleStencilRPHandle := {} } = false ∧
      (compatibleRenderPassHandle true (specCreateSimpleRenderPass demoProvider) true
        { cachedTarget with fCachedStencilRenderPass := none
                            fCompatibleStencilRPHandle := {} }).created = [true] ∧
      rpHandleSlot false
        (compatibleRenderPassHandle true (specCreateSimpleRenderPass demoProvider) true
          { cachedTarget with fCachedStencilRenderPass := none
                              fCompatibleStencilRPHandle := {} }).target = ⟨some 0⟩ ∧
      cachedPassSlot false
        (compatibleRenderPassHandle true (specCreateSimpleRenderPass demoProvider) true
          { cachedTarget with fCachedStencilRenderPass := none
                              fCompatibleStencilRPHandle := {} }).target = some ⟨10, false⟩ :=
  have h := C4_render_pass_slots_independent true (specCreateSimpleRenderPass demoProvider)
    demoProvider true
    { cachedTarget with fCachedStencilRenderPass := none
                        fCompatibleStencilRPHandle := {} } rfl
  ⟨rfl, h.1, h.2.2.2.1, h.2.2.2.2.1⟩

/-- C5: in a debug build, on an owning target whose slots are empty (and so
consistent), a `compatibleRenderPassHandle` call whose pass creation fails
passes the checks of lines 61 and 70/73 and then evaluates
`hasStencilAttachment()` through the null cached pass on line 71/74; in a
release build the same call returns the invalid handle. -/
theorem C5_failed_creation_dereferences_null :
    wrapsSecondaryCommandBuffer owningTarget = false ∧
      slotConsistent false owningTarget = true ∧ slotConsistent true owningTarget = true ∧
      (compatibleRenderPassHandle true failingCreate false owningTarget).created = [false] ∧
      (compatibleRenderPassHandle true failingCreate false owningTarget).target = owningTarget ∧
      SkASSERT true 73
          (.ok ((rpHandleSlot false owningTarget).isValid
            == owningTarget.fCachedSimpleRenderPass.isSome)) = .ok () ∧
      (compatibleRenderPassHandle true failingCreate false owningTarget).value
        = .error (.nullDereference 74) ∧
      (compatibleRenderPassHandle true failingCreate true owningTarget).value
        = .error (.nullDereference 71) ∧
      (compatibleRenderPassHandle false failingCreate false owningTarget).value
        = .ok ⟨none⟩ :=
  ⟨rfl, rfl, rfl, rfl, rfl, rfl, rfl, rfl, rfl⟩

/-- C6, as stated, fails: on the target that wraps an external command
buffer, in a debug build, `onGpuMemorySize` returns a size normally. -/
theorem C6_wrap_mode_size_returns_normally :
    wrapsSecondaryCommandBuffer wrappedTarget = true ∧
      (call debugEnv Op.onGpuMemorySize wrappedTarget).value = .ok (.size 262144) :=
  ⟨rfl, rfl⟩

/-- C6, amended: `onGpuMemorySize` has no mode check.  For every target, in
either mode and either build, it returns normally the size computed from the
target's caps, format, dimensions and sample multiplier, changes nothing,
and its result does not depend on the secondary command buffer handle. -/
theorem C6_onGpuMemorySize_has_no_mode_check (env : Env) (t : GrVkRenderTarget) :
    (call env Op.onGpuMemorySize t).value = .ok (.size (onGpuMemorySize env.ComputeSize t)) ∧
      (call env Op.onGpuMemorySize t).target = t ∧
      (call env Op.onGpuMemorySize t).created = [] ∧
      ∀ c : VkCommandBuffer,
        onGpuMemorySize env.ComputeSize { t with fSecondaryCommandBuffer := c }
          = onGpuMemorySize env.ComputeSize t :=
  ⟨rfl, rfl, rfl, fun _ => rfl⟩

/-- C7: `addWrappedGrSecondaryCommandBuffer(h)` leaves the retire list equal
to the old list followed by `h`: the length grows by one, every earlier
entry keeps its position, `h` is last and occurs once more than before (once,
when it was not recorded before), and no other field changes.  Recording
`h1, h2, h3` on an empty list yields `[h1, h2, h3]`, and no sequence of calls
of the member functions defined in the header that does not reach
`createSimpleRenderPass` removes an entry. -/
theorem C7_record_resource_appends (h : Nat) (t : GrVkRenderTarget) :
    (addWrappedGrSecondaryCommandBuffer h t).fGrSecondaryCommandBuffers
        = t.fGrSecondaryCommandBuffers ++ [h] ∧
      (addWrappedGrSecondaryCommandBuffer h t).fGrSecondaryCommandBuffers.length
        = t.fGrSecondaryCommandBuffers.length + 1 ∧
      (∀ i, i < t.fGrSecondaryCommandBuffers.length →
        (addWrappedGrSecondaryCommandBuffer h t).fGrSecondaryCommandBuffers[i]?
          = t.fGrSecondaryCommandBuffers[i]?) ∧
      (addWrappedGrSecondaryCommandBuffer h t).fGrSecondaryCommandBuffers.getLast? = some h ∧
      (addWrappedGrSecondaryCommandBuffer h t).fGrSecondaryCommandBuffers.count h
        = t.fGrSecondaryCommandBuffers.count h + 1 ∧
      (h ∉ t.fGrSecondaryCommandBuffers →
        (addWrappedGrSecondaryCommandBuffer h t).fGrSecondaryCommandBuffers.count h = 1) ∧
      { addWrappedGrSecondaryCommandBuffer h t with
          fGrSecondaryCommandBuffers := t.fGrSecondaryCommandBuffers } = t ∧
      (∀ h1 h2 h3 : Nat, t.fGrSecondaryCommandBuffers = [] →
        (addWrappedGrSecondaryCommandBuffer h3
          (addWrappedGrSecondaryCommandBuffer h2
            (addWrappedGrSecondaryCommandBuffer h1 t))).fGrSecondaryCommandBuffers
          = [h1, h2, h3]) ∧
      (∀ (env : Env) (ops : List Op), (runOps env ops t).2 = [] →
        keepsEntries t.fGrSecondaryCommandBuffers
          (runOps env ops t).1.fGrSecondaryCommandBuffers) := by
  refine ⟨rfl, by simp [addWrappedGrSecondaryCommandBuffer], ?_, ?_, ?_, ?_, rfl, ?_, ?_⟩
  · intro i hi
    simp only [addWrappedGrSecondaryCommandBuffer]
    exact List.getElem?_append_left hi
  · simp [addWrappedGrSecondaryCommandBuffer]
  · simp [addWrappedGrSecondaryCommandBuffer]
  · intro hnot
    simp [addWrappedGrSecondaryCommandBuffer, List.count_eq_zero_of_not_mem hnot]
  · intro h1 h2 h3 hnil
    simp [addWrappedGrSecondaryCommandBuffer, hnil]
  · intro env ops hc
    exact (runOps_frame env ops t hc).2

/-- C7 on the wrapping target: three recordings give the three handles in
order, and a fourth, new one occurs once. -/
theorem C7_record_resource_appends_witness :
    wrappedTarget.fGrSecondaryCommandBuffers = [] ∧
      (addWrappedGrSecondaryCommandBuffer 7
        (addWrappedGrSecondaryCommandBuffer 6
          (addWrappedGrSecondaryCommandBuffer 5 wrappedTarget))).fGrSecondaryCommandBuffers
        = [5, 6, 7] ∧
      (addWrappedGrSecondaryCommandBuffer 9 wrappedTarget).fGrSecondaryCommandBuffers.count 9
        = 1 :=
  ⟨rfl, (C7_record_resource_appends 9 wrappedTarget).2.2.2.2.2.2.2.1 5 6 7 rfl,
    (C7_record_resource_appends 9 wrappedTarget).2.2.2.2.2.1 (by decide)⟩

/-- C8, as stated, fails: in a build with `SkASSERT` compiled out, on the
target that wraps an external command buffer and whose non-stencil handle is
the default invalid one, `compatibleRenderPassHandle(false)` passes line 61,
calls `createSimpleRenderPass(false)` and returns normally; with creation as
the spec describes it the host pass 20 of the slot is replaced. -/
theorem C8_release_build_wrap_mode_reaches_creation :
    wrapsSecondaryCommandBuffer wrappedTarget = true ∧
      (rpHandleSlot false wrappedTarget).isValid = false ∧
      wrappedTarget.fCachedSimpleRenderPass = some ⟨20, false⟩ ∧
      (compatibleRenderPassHandle false (specCreateSimpleRenderPass demoProvider) false
        wrappedTarget).created = [false] ∧
      (compatibleRenderPassHandle false (specCreateSimpleRenderPass demoProvider) false
        wrappedTarget).value = .ok ⟨some 0⟩ ∧
      (compatibleRenderPassHandle false (specCreateSimpleRenderPass demoProvider) false
        wrappedTarget).target.fCachedSimpleRenderPass = some ⟨10, false⟩ :=
  ⟨rfl, rfl, rfl, rfl, rfl, rfl⟩

/-- C8, amended: in a debug build, on a target with
`wrapsSecondaryCommandBuffer()` true and for either flag,
`compatibleRenderPassHandle(withStencil)` fails the check of line 61 with no
`createSimpleRenderPass` call made and the object untouched, so a
debug-build call that reaches `createSimpleRenderPass` was made in owning
mode.  In either build a call that reaches it was made with the selected
slot's handle not valid and reaches it once, for the same flag.  With
`SkASSERT` compiled out there is no mode check: creation is requested
exactly when the selected slot's handle is not valid, in either mode. -/
theorem C8_wrap_mode_never_constructs_pass (create : CreateFn) (withStencil : Bool)
    (t : GrVkRenderTarget) :
    (wrapsSecondaryCommandBuffer t = true →
        (compatibleRenderPassHandle true create withStencil t).value
            = .error (.assertion 61) ∧
          (compatibleRenderPassHandle true create withStencil t).created = [] ∧
          (compatibleRenderPassHandle true create withStencil t).target = t) ∧
      ((compatibleRenderPassHandle true create withStencil t).created ≠ [] →
        wrapsSecondaryCommandBuffer t = false) ∧
      (∀ skDebug : Bool,
        (compatibleRenderPassHandle skDebug create withStencil t).created ≠ [] →
        (rpHandleSlot withStencil t).isValid = false ∧
          (compatibleRenderPassHandle skDebug create withStencil t).created = [withStencil]) ∧
      (compatibleRenderPassHandle false create withStencil t).created
        = (if (rpHandleSlot withStencil t).isValid then [] else [withStencil]) := by
  refine ⟨?_, ?_, ?_, ?_⟩
  · intro hw
    simp [compatibleRenderPassHandle, SkASSERT, hw]
  · intro hc
    cases hw : wrapsSecondaryCommandBuffer t
    · rfl
    · exact absurd (by simp [compatibleRenderPassHandle, SkASSERT, hw]) hc
  · intro skDebug hc
    cases hv : (rpHandleSlot withStencil t).isValid
    · refine ⟨rfl, ?_⟩
      unfold compatibleRenderPassHandle at hc ⊢
      cases hpre : SkASSERT skDebug 61 (.ok (!wrapsSecondaryCommandBuffer t)) with
      | error e => simp [hpre] at hc
      | ok u =>
        simp only [hpre, hv]
        split <;> simp
    · exfalso
      apply hc
      unfold compatibleRenderPassHandle
      cases hpre : SkASSERT skDebug 61 (.ok (!wrapsSecondaryCommandBuffer t)) with
      | error e => simp
      | ok u =>
        simp only [hv]
        split <;> simp
  · unfold compatibleRenderPassHandle
    rw [SkASSERT_release]
    cases hv : (rpHandleSlot withStencil t).isValid <;> simp [debugChecks_release]

/-- C8, amended, on the wrapping target, whose slots hold no valid handle:
the debug-build request for the stencil pass stops at line 61. -/
theorem C8_wrap_mode_never_constructs_pass_witness :
    wrapsSecondaryCommandBuffer wrappedTarget = true ∧
      (rpHandleSlot true wrappedTarget).isValid = false ∧
      (compatibleRenderPassHandle true (specCreateSimpleRenderPass demoProvider) true
        wrappedTarget).value = .error (.assertion 61) ∧
      (compatibleRenderPassHandle true (specCreateSimpleRenderPass demoProvider) true
        wrappedTarget).created = [] :=
  have h := (C8_wrap_mode_never_constructs_pass (specCreateSimpleRenderPass demoProvider) true
    wrappedTarget).1 rfl
  ⟨rfl, rfl, h.1, h.2.1⟩

/-- C9: on a target in external-wrap mode whose non-stencil slot holds the
host pass `P`, `externalRenderPass()` returns `P` in either build, whatever
the stencil slot holds, and the call changes nothing and creates nothing; on
a target not in external-wrap mode the debug-build call fails the check of
line 81. -/
theorem C9_externalRenderPass_exposes_simple_slot (env : Env) (t : GrVkRenderTarget) :
    (∀ P : GrVkRenderPass, wrapsSecondaryCommandBuffer t = true →
        t.fCachedSimpleRenderPass = some P →
        externalRenderPass env.skDebug t = .ok (some P) ∧
          (∀ q : Option GrVkRenderPass,
            externalRenderPass env.skDebug { t with fCachedStencilRenderPass := q }
              = .ok (some P)) ∧
          (call env Op.externalRenderPass t).value = .ok (.pass (some P)) ∧
          (call env Op.externalRenderPass t).target = t ∧
          (call env Op.externalRenderPass t).created = []) ∧
      (wrapsSecondaryCommandBuffer t = false →
        externalRenderPass true t = .error (.assertion 81)) := by
  refine ⟨?_, ?_⟩
  · intro P hw hP
    have hval : externalRenderPass env.skDebug t = .ok (some P) := by
      cases hd : env.skDebug <;> simp [externalRenderPass, SkASSERT, hw, hP]
    refine ⟨hval, ?_, ?_, rfl, rfl⟩
    · intro q
      have hq : externalRenderPass env.skDebug { t with fCachedStencilRenderPass := q }
          = externalRenderPass env.skDebug t := rfl
      rw [hq, hval]
    · simp only [call, hval]
  · intro hw
    simp [externalRenderPass, SkASSERT, hw]

/-- C9 on the wrapping target holding host pass 20, and on the owning
target. -/
theorem C9_externalRenderPass_exposes_simple_slot_witness :
    wrapsSecondaryCommandBuffer wrappedTarget = true ∧
      externalRenderPass true wrappedTarget = .ok (some ⟨20, false⟩) ∧
      wrapsSecondaryCommandBuffer owningTarget = false ∧
      externalRenderPass true owningTarget = .error (.assertion 81) :=
  ⟨rfl, ((C9_externalRenderPass_exposes_simple_slot debugEnv wrappedTarget).1
      ⟨20, false⟩ rfl rfl).1,
    rfl, (C9_externalRenderPass_exposes_simple_slot debugEnv owningTarget).2 rfl⟩

/-- C10: no sequence of calls of the member functions defined in the header
(the accessors, `msaaImageResource`, `externalRenderPass`,
`canAttemptStencilAttachment`, `onGpuMemorySize`,
`addWrappedGrSecondaryCommandBuffer`, and `compatibleRenderPassHandle` as
long as it does not reach `createSimpleRenderPass`) changes the stored
secondary command buffer handle, so `wrapsSecondaryCommandBuffer()` and
`canAttemptStencilAttachment()` return the same value before and after, and
each is the negation of the other in both states. -/
theorem C10_identity_mode_is_fixed (env : Env) (ops : List Op) (t : GrVkRenderTarget) :
    ((runOps env ops t).2 = [] →
        (runOps env ops t).1.fSecondaryCommandBuffer = t.fSecondaryCommandBuffer ∧
          wrapsSecondaryCommandBuffer (runOps env ops t).1 = wrapsSecondaryCommandBuffer t ∧
          canAttemptStencilAttachment (runOps env ops t).1 = canAttemptStencilAttachment t) ∧
      canAttemptStencilAttachment t = !wrapsSecondaryCommandBuffer t ∧
      canAttemptStencilAttachment (runOps env ops t).1
        = !wrapsSecondaryCommandBuffer (runOps env ops t).1 := by
  refine ⟨?_, rfl, rfl⟩
  intro hc
  have h := (runOps_frame env ops t hc).1
  refine ⟨h, ?_, ?_⟩
  · simp [wrapsSecondaryCommandBuffer, h]
  · simp [canAttemptStencilAttachment, wrapsSecondaryCommandBuffer, h]

/-- C10 on the wrapping target in a debug build: after a run through every
member function of the header the target still wraps the same buffer. -/
theorem C10_identity_mode_is_fixed_witness :
    (runOps debugEnv everyOp wrappedTarget).2 = [] ∧
      (runOps debugEnv everyOp wrappedTarget).1.fSecondaryCommandBuffer = 4096 :=
  ⟨rfl, ((C10_identity_mode_is_fixed debugEnv everyOp wrappedTarget).1 rfl).1⟩

end GrVkRenderTarget
